import Mathlib

/-!
Shallow embedding of the core logic of the Telegram shop bot:

* `multiplication` and the cart screen resolver `carts` from `handlers/menu.py`;
* the one-item-per-page `Paginator` from `paginator/pag.py`;
* the cart/stock operations `orm_add_to_cart`, `orm_reduce_product_in_cart`,
  `orm_delete_from_cart` from `database/requests.py`, over an explicit
  database state (the `product` and `cart` tables of `database/models.py`);
* the admin product wizard's free-text step handlers `add_name`,
  `add_description`, `add_price`, `add_quantity` and the global `back_step`
  handler from `handlers/admin.py`.

Conventions of the embedding: Python numbers are `Int` (tables) and `ℚ`
(prices, which the schema stores as decimals); a Python function that can
raise an uncaught exception returns `Option`/`Except`, with `none`/`error`
standing for the raised exception; SQLAlchemy's `.scalar()` is first-match
lookup on the table list, and mutation of the loaded row is first-match
update; message sending is recorded as a list of reply strings (keyboards
and photo payloads are elided where no claim mentions them).
-/

/-- A Python value as passed to `multiplication` in `handlers/menu.py`
(the tests call it with ints, floats, strings and `None`).  Python floats
are modelled as rationals: none of the verified facts depend on binary
rounding. -/
inductive PyVal where
  | int : Int → PyVal
  | float : ℚ → PyVal
  | str : String → PyVal
  | none : PyVal
deriving DecidableEq, Repr

/-- `multiplication(quantity, price)` from `handlers/menu.py`.
`isinstance(quantity, int)` failing raises `TypeError`; the three negativity
checks raise `ValueError`; both are modelled as `Except.error` carrying the
exact message string. -/
def multiplication (quantity : PyVal) (price : ℚ) : Except String ℚ :=
  match quantity with
  | .int q =>
    if price < 0 ∧ q < 0 then .error "Both price and quantity cannot be negative"
    else if price < 0 then .error "Price cannot be negative"
    else if q < 0 then .error "Quantity cannot be negative"
    else .ok (q * price)
  | _ => .error "Quantity must be an integer"

/-- The `Paginator` of `paginator/pag.py` after a successful `__init__`:
the stored array, the 1-based current page, and the `len`/`pages` fields
(`pages = len` because one item is one page). -/
structure Paginator (α : Type) where
  array : List α
  page : Int
  len : Nat
  pages : Nat
deriving Repr

/-- `Paginator.__init__`: raises `ValueError` on an empty array or `page < 1`
and `IndexError` when `len(array) < page`; modelled as `Except.error` with
the exception message. -/
def Paginator.make (array : List α) (page : Int) : Except String (Paginator α) :=
  if array.isEmpty then .error "Array cannot be empty"
  else if page < 1 then .error "Page must be greater than 0"
  else if (array.length : Int) < page then .error "This page doesn't exist"
  else .ok ⟨array, page, array.length, array.length⟩

/-- `Paginator.get_item`: `self.array[self.page - 1]`; `none` models the
`IndexError` that plain list indexing would raise out of range (a valid
constructed paginator never hits it). -/
def Paginator.get_item (p : Paginator α) : Option α :=
  p.array.get? (p.page - 1).toNat

/-- `Paginator.has_next`: the next page number or Python `False`, modelled
as `Option Int` with `none` for `False`. -/
def Paginator.has_next (p : Paginator α) : Option Int :=
  if p.page < (p.pages : Int) then some (p.page + 1) else none

/-- `Paginator.has_previous`: the previous page number or Python `False`. -/
def Paginator.has_previous (p : Paginator α) : Option Int :=
  if 1 < p.page then some (p.page - 1) else none

/-- Python truthiness of the `int | False` values returned by
`has_next`/`has_previous` (`False` and `0` are falsy). -/
def pyTruthy : Option Int → Bool
  | Option.none => false
  | some n => n != 0

/-- A row of the `product` table (`database/models.py`): `price` is stored
as a decimal, modelled by `ℚ`. -/
structure Product where
  id : Int
  name : String
  description : String
  price : ℚ
  image : String
  category_id : Int
  quantity : Int
deriving DecidableEq, Repr

/-- A row of the `cart` table (`database/models.py`). -/
structure Cart where
  id : Int
  user_id : Int
  product_id : Int
  quantity : Int
deriving DecidableEq, Repr

/-- The database state the cart operations read and write: the `product`
and `cart` tables, as lists in insertion order. -/
structure DB where
  products : List Product
  carts : List Cart
deriving DecidableEq, Repr

/-- Replace the first element satisfying `p` by its image under `f`
(mutating the single row `.scalar()` returned). -/
def updateFirstP (p : α → Bool) (f : α → α) : List α → List α
  | [] => []
  | x :: xs => if p x then f x :: xs else x :: updateFirstP p f xs

/-- `select(Product).where(Product.id == product_id)` followed by
`.scalar()`: the first matching row, if any. -/
def DB.findProduct (s : DB) (pid : Int) : Option Product :=
  s.products.find? (fun p => p.id == pid)

/-- `select(Cart).where(Cart.user_id == user_id, Cart.product_id == product_id)`
followed by `.scalar()`. -/
def DB.findCart (s : DB) (uid pid : Int) : Option Cart :=
  s.carts.find? (fun c => c.user_id == uid && c.product_id == pid)

/-- The autoincremented primary key `session.add` gives a fresh cart row. -/
def nextCartId (cs : List Cart) : Int :=
  cs.foldl (fun a c => max a c.id) 0 + 1

/-- `orm_add_to_cart` (`database/requests.py`): returns the new database
state and the boolean result.  Absent product or `quantity <= 0` returns
`False` without touching anything; otherwise the product row loses one unit
and the (user, product) cart row gains one (or is created with quantity 1). -/
def orm_add_to_cart (s : DB) (user_id product_id : Int) : DB × Bool :=
  match s.findProduct product_id with
  | Option.none => (s, false)
  | some product =>
    if product.quantity ≤ 0 then (s, false)
    else
      match s.findCart user_id product_id with
      | some _ =>
        ({ products := updateFirstP (fun p => p.id == product_id)
              (fun p => { p with quantity := p.quantity - 1 }) s.products,
           carts := updateFirstP (fun c => c.user_id == user_id && c.product_id == product_id)
              (fun c => { c with quantity := c.quantity + 1 }) s.carts }, true)
      | Option.none =>
        ({ products := updateFirstP (fun p => p.id == product_id)
              (fun p => { p with quantity := p.quantity - 1 }) s.products,
           carts := s.carts ++ [⟨nextCartId s.carts, user_id, product_id, 1⟩] }, true)

/-- `orm_reduce_product_in_cart` (`database/requests.py`): returns the new
state and the boolean result; `none` models the `AttributeError` raised when
the joined `cart.product` row does not exist (dangling foreign key). -/
def orm_reduce_product_in_cart (s : DB) (user_id product_id : Int) :
    Option (DB × Bool) :=
  match s.findCart user_id product_id with
  | Option.none => some (s, false)
  | some cart =>
    match s.findProduct cart.product_id with
    | Option.none => Option.none
    | some _ =>
      if 1 < cart.quantity then
        some ({ products := updateFirstP (fun p => p.id == cart.product_id)
                  (fun p => { p with quantity := p.quantity + 1 }) s.products,
                carts := updateFirstP (fun c => c.user_id == user_id && c.product_id == product_id)
                  (fun c => { c with quantity := c.quantity - 1 }) s.carts }, true)
      else
        some ({ products := updateFirstP (fun p => p.id == cart.product_id)
                  (fun p => { p with quantity := p.quantity + 1 }) s.products,
                carts := s.carts.eraseP
                  (fun c => c.user_id == user_id && c.product_id == product_id) }, false)

/-- `orm_delete_from_cart` (`database/requests.py`): removes the (user,
product) cart row, returning its whole quantity to the product row; no-op
when the row is absent; `none` models the `AttributeError` on a dangling
`cart.product`. -/
def orm_delete_from_cart (s : DB) (user_id product_id : Int) : Option DB :=
  match s.findCart user_id product_id with
  | Option.none => some s
  | some cart =>
    match s.findProduct cart.product_id with
    | Option.none => Option.none
    | some _ =>
      some { products := updateFirstP (fun p => p.id == cart.product_id)
               (fun p => { p with quantity := p.quantity + cart.quantity }) s.products,
             carts := s.carts.eraseP
               (fun c => c.user_id == user_id && c.product_id == product_id) }

/-- The conserved quantity of the spec's global invariant, for a product id:
the stock recorded in the `product` table plus the total of `Cart.quantity`
over all cart lines with that `product_id`. -/
def conservedTotal (s : DB) (pid : Int) : Int :=
  ((s.products.filter (fun p => p.id == pid)).map Product.quantity).sum +
    ((s.carts.filter (fun c => c.product_id == pid)).map Cart.quantity).sum

/-- The whitespace stripping `int(...)`/`float(...)` apply to their string
argument before parsing. -/
def pyStrip (cs : List Char) : List Char :=
  ((cs.dropWhile Char.isWhitespace).reverse.dropWhile Char.isWhitespace).reverse

/-- Acceptance of `int(text)` in `add_quantity` (`handlers/admin.py`):
surrounding whitespace stripped, then an optional sign followed by one or
more ASCII digits.  (Python also accepts underscore digit separators;
no claim depends on them.) -/
def pyIntParses (text : String) : Bool :=
  match pyStrip text.toList with
  | '+' :: rest => !rest.isEmpty && rest.all Char.isDigit
  | '-' :: rest => !rest.isEmpty && rest.all Char.isDigit
  | cs => !cs.isEmpty && cs.all Char.isDigit

/-- Digits with at most one decimal point and at least one digit: the body
of a `float(text)` literal. -/
def pyFloatBody (cs : List Char) : Bool :=
  cs.any Char.isDigit && ((cs.filter (fun c => c == '.')).length ≤ 1)
    && cs.all (fun c => c.isDigit || c == '.')

/-- Acceptance of `float(text)` in `add_price` (`handlers/admin.py`):
optional sign, digits with an optional single decimal point.  (Python also
accepts exponents, `inf`/`nan` and underscores; no claim depends on them.) -/
def pyFloatParses (text : String) : Bool :=
  match pyStrip text.toList with
  | '+' :: rest => pyFloatBody rest
  | '-' :: rest => pyFloatBody rest
  | cs => pyFloatBody cs

/-- The aiogram FSM states of `handlers/admin.py`: the one-step `Banner`
group and the six-step `AddProduct` group, in declaration order. -/
inductive WizState where
  | bannerImage
  | apName
  | apDescription
  | apCategory
  | apPrice
  | apQuantity
  | apImage
deriving DecidableEq, Repr, Fintype

/-- `AddProduct.__all_states__`: the product flow's states in declaration
order (the `Banner` group is not part of it). -/
def all_states : List WizState :=
  [.apName, .apDescription, .apCategory, .apPrice, .apQuantity, .apImage]

/-- The `AddProduct.texts` dict of re-prompt strings, keyed by state.
`bannerImage` has no entry in the source dict (a lookup would raise
`KeyError`; it is never looked up). -/
def texts : WizState → String
  | .apName => "Введите название заново:"
  | .apDescription => "Введите описание заново:"
  | .apCategory => "Выберите категорию заново"
  | .apPrice => "Введите стоимость заново:"
  | .apQuantity => "Введите количество заново"
  | .apImage => "Этот шаг последний"
  | .bannerImage => ""

/-- The wizard's collected fields (`state.update_data` keys).  `name`,
`description`, `category` and `image` always hold strings; `price` and
`quantity` hold either the raw message text or the target product's stored
value, so they are kept as `PyVal`. -/
structure WizData where
  name : Option String
  description : Option String
  category : Option String
  price : Option PyVal
  quantity : Option PyVal
  image : Option String
deriving DecidableEq, Repr

/-- What one wizard text handler does: the updated collected fields, the
state it leaves the session in, and the texts of the replies it sends. -/
structure StepResult where
  data : WizData
  state : Option WizState
  replies : List String
deriving DecidableEq, Repr

/-- `add_name` (`handlers/admin.py`): `"."` with a target product stores the
target's name, any other text is stored verbatim; always advances to the
description step. -/
def add_name (d : WizData) (target : Option Product) (text : String) : StepResult :=
  match text == ".", target with
  | true, some prod =>
    ⟨{ d with name := some prod.name }, some .apDescription, ["Введите описание товара"]⟩
  | _, _ =>
    ⟨{ d with name := some text }, some .apDescription, ["Введите описание товара"]⟩

/-- `add_description` (`handlers/admin.py`): same shape as `add_name`;
always advances to the category step (the category keyboard it sends is
elided, only the reply text is kept). -/
def add_description (d : WizData) (target : Option Product) (text : String) : StepResult :=
  match text == ".", target with
  | true, some prod =>
    ⟨{ d with description := some prod.description }, some .apCategory, ["Выберите категорию"]⟩
  | _, _ =>
    ⟨{ d with description := some text }, some .apCategory, ["Выберите категорию"]⟩

/-- `add_price` (`handlers/admin.py`): `"."` with a target stores the
target's stored price; otherwise the text must pass `float(...)`, and on
`ValueError` the handler re-prompts without storing or changing state. -/
def add_price (d : WizData) (target : Option Product) (text : String) : StepResult :=
  match text == ".", target with
  | true, some prod =>
    ⟨{ d with price := some (.float prod.price) }, some .apQuantity, ["Введите количество товаров"]⟩
  | _, _ =>
    if pyFloatParses text then
      ⟨{ d with price := some (.str text) }, some .apQuantity, ["Введите количество товаров"]⟩
    else
      ⟨d, some .apPrice, ["Введите корректное значение цены"]⟩

/-- `add_quantity` (`handlers/admin.py`): `"."` with a target stores the
target's stored quantity; otherwise the text must pass `int(...)`. -/
def add_quantity (d : WizData) (target : Option Product) (text : String) : StepResult :=
  match text == ".", target with
  | true, some prod =>
    ⟨{ d with quantity := some (.int prod.quantity) }, some .apImage, ["Загрузите изображение товара"]⟩
  | _, _ =>
    if pyIntParses text then
      ⟨{ d with quantity := some (.str text) }, some .apImage, ["Загрузите изображение товара"]⟩
    else
      ⟨d, some .apQuantity, ["Введите корректное значение количества товара"]⟩

/-- The loop of `back_step`: walk `AddProduct.__all_states__` carrying the
previous state; on finding the current state, set the state to the previous
one and reply with its `texts` entry; fall off the end silently.  The
`previous = None` reply branch is unreachable (the first state was handled
before the loop) and mirrors the `KeyError` the source would raise there. -/
def backLoop (current : Option WizState) :
    Option WizState → List WizState → Option WizState × List String
  | _, [] => (current, [])
  | previous, step :: rest =>
    if some step = current then
      (previous,
        ["Вы вернулись к прошлому шагу \n " ++
          (match previous with | some pr => texts pr | Option.none => "")])
    else backLoop current (some step) rest

/-- `back_step` (`handlers/admin.py`): the global "назад" handler.  Returns
the state it leaves the session in and the replies it sends. -/
def back_step (current : Option WizState) : Option WizState × List String :=
  if current = some .apName then
    (current, ["Предыдущего шага нет. Введите название товара или напишите \"отмена\""])
  else backLoop current Option.none all_states

/-- The fields of the `InputMediaPhoto` built by `carts` in
`handlers/menu.py`: the photo reference and the caption's data (the
caption's textual formatting through `format_price` is elided; `cart_price`
and `total_price` are kept as the exact rational amounts). -/
structure CartMedia where
  image : String
  name : String
  price : ℚ
  cart_quantity : Int
  cart_price : ℚ
  stock : Int
  pag_page : Int
  pag_pages : Nat
  total_price : ℚ
deriving DecidableEq, Repr

/-- The arguments `carts` passes to `get_user_cart`: the (possibly
adjusted) page, the presence of the previous/next pagination buttons, and
the current line's product id. -/
structure CartKb where
  page : Int
  has_prev : Bool
  has_next : Bool
  product_id : Int
deriving DecidableEq, Repr

/-- The value `carts` returns: either the `(image, keyboard)` pair, or one
of its two bool-pair sentinels `(True, False)` / `(False, False)`. -/
inductive CartsRet where
  | boolPair : Bool → Bool → CartsRet
  | view : CartMedia → CartKb → CartsRet
deriving DecidableEq, Repr

/-- `sum(multiplication(cart.quantity, cart.product.price) for cart in baskets)`:
`none` models the exception when a joined product row is missing or
`multiplication` raises. -/
def cartsTotal (s : DB) : List Cart → Option ℚ
  | [] => some 0
  | c :: rest =>
    match s.findProduct c.product_id with
    | Option.none => Option.none
    | some product =>
      match multiplication (.int c.quantity) product.price with
      | .error _ => Option.none
      | .ok v =>
        match cartsTotal s rest with
        | Option.none => Option.none
        | some t => some (v + t)

/-- The listing half of `carts` (`handlers/menu.py`), from
`orm_get_user_carts` to the returned pair; `page` is the already-adjusted
page.  `none` models any uncaught exception (paginator construction,
missing joined product, `multiplication` failure). -/
def cartsRender (s : DB) (user_id page : Int) : Option (DB × CartsRet) :=
  let baskets := s.carts.filter (fun c => c.user_id == user_id)
  if baskets.isEmpty then some (s, .boolPair false false)
  else
    match Paginator.make baskets page with
    | .error _ => Option.none
    | .ok paginator =>
      match paginator.get_item with
      | Option.none => Option.none
      | some cart =>
        match s.findProduct cart.product_id with
        | Option.none => Option.none
        | some product =>
          match multiplication (.int cart.quantity) product.price with
          | .error _ => Option.none
          | .ok cart_price =>
            match cartsTotal s baskets with
            | Option.none => Option.none
            | some total_price =>
              some (s, .view
                ⟨product.image, product.name, product.price, cart.quantity,
                  cart_price, product.quantity, paginator.page, paginator.pages,
                  total_price⟩
                ⟨page, pyTruthy paginator.has_previous,
                  pyTruthy paginator.has_next, cart.product_id⟩)

/-- `carts` (`handlers/menu.py`): perform the requested cart action, adjust
`page`, then re-list.  Returns the resulting database state together with
the returned pair; `none` models an uncaught exception. -/
def carts (s : DB) (user_id : Int) (menu_name : Option String) (page : Int)
    (product_id : Int) : Option (DB × CartsRet) :=
  if menu_name = some "increment" then
    match s.findProduct product_id with
    | some product =>
      if 0 < product.quantity then
        cartsRender (orm_add_to_cart s user_id product_id).1 user_id page
      else some (s, .boolPair true false)
    | Option.none => some (s, .boolPair true false)
  else if menu_name = some "delete" then
    match orm_delete_from_cart s user_id product_id with
    | Option.none => Option.none
    | some s1 => cartsRender s1 user_id (if 1 < page then page - 1 else page)
  else if menu_name = some "decrement" then
    match orm_reduce_product_in_cart s user_id product_id with
    | Option.none => Option.none
    | some out =>
      cartsRender out.1 user_id
        (if 1 < page ∧ out.2 = false then page - 1 else page)
  else cartsRender s user_id page

theorem updateFirstP_of_find?_none (p : α → Bool) (f : α → α) :
    ∀ l : List α, l.find? p = Option.none → updateFirstP p f l = l
  | [], _ => rfl
  | x :: xs, h => by
    by_cases hx : p x
    · rw [List.find?_cons_of_pos _ hx] at h; cases h
    · rw [List.find?_cons_of_neg _ hx] at h
      simp [updateFirstP, hx, updateFirstP_of_find?_none p f xs h]

theorem updateFirstP_map_sum (p : α → Bool) (f : α → α) (w : α → Int) :
    ∀ (l : List α) (a : α), l.find? p = some a →
      ((updateFirstP p f l).map w).sum = (l.map w).sum + (w (f a) - w a)
  | [], _, h => by cases h
  | x :: xs, a, h => by
    by_cases hx : p x
    · rw [List.find?_cons_of_pos _ hx] at h
      cases h
      simp only [updateFirstP, hx, if_pos, List.map_cons, List.sum_cons]
      ring
    · rw [List.find?_cons_of_neg _ hx] at h
      simp only [updateFirstP, hx, if_neg, Bool.false_eq_true, not_false_iff,
        List.map_cons, List.sum_cons, updateFirstP_map_sum p f w xs a h]
      ring

theorem eraseP_map_sum (p : α → Bool) (w : α → Int) :
    ∀ (l : List α) (a : α), l.find? p = some a →
      ((l.eraseP p).map w).sum = (l.map w).sum - w a
  | [], _, h => by cases h
  | x :: xs, a, h => by
    by_cases hx : p x
    · rw [List.find?_cons_of_pos _ hx] at h
      cases h
      rw [List.eraseP_cons_of_pos hx]
      simp only [List.map_cons, List.sum_cons]
      ring
    · rw [List.find?_cons_of_neg _ hx] at h
      rw [List.eraseP_cons_of_neg hx]
      simp only [List.map_cons, List.sum_cons, eraseP_map_sum p w xs a h]
      ring

theorem filter_map_sum (q : α → Bool) (w : α → Int) :
    ∀ l : List α,
      ((l.filter q).map w).sum = (l.map (fun x => if q x then w x else 0)).sum
  | [] => rfl
  | x :: xs => by
    by_cases hx : q x <;>
      simp [List.filter_cons, hx, filter_map_sum q w xs]

theorem find?_updateFirstP (p : α → Bool) (f : α → α) (hf : ∀ a, p (f a) = p a) :
    ∀ l : List α, (updateFirstP p f l).find? p = (l.find? p).map f
  | [] => rfl
  | x :: xs => by
    by_cases hx : p x
    · have hfx : p (f x) = true := by rw [hf]; exact hx
      rw [show updateFirstP p f (x :: xs) = f x :: xs by simp [updateFirstP, hx],
        List.find?_cons_of_pos _ hfx, List.find?_cons_of_pos _ hx]
      rfl
    · simp only [updateFirstP, hx, Bool.false_eq_true, if_neg, not_false_iff,
        List.find?_cons_of_neg _ hx, find?_updateFirstP p f hf xs]

theorem find?_eraseP_of_countP_le_one (p : α → Bool) :
    ∀ l : List α, l.countP p ≤ 1 → (l.eraseP p).find? p = Option.none
  | [], _ => rfl
  | x :: xs, h => by
    by_cases hx : p x
    · rw [List.eraseP_cons_of_pos hx]
      rw [List.countP_cons_of_pos _ _ hx] at h
      have h0 : xs.countP p = 0 := by omega
      exact List.find?_eq_none.mpr fun a ha hpa => by
        have := List.countP_eq_zero.mp h0 a ha
        simp [hpa] at this
    · rw [List.eraseP_cons_of_neg hx, List.find?_cons_of_neg _ hx]
      rw [List.countP_cons_of_neg _ _ hx] at h
      exact find?_eraseP_of_countP_le_one p xs h

theorem find?_append_none (p : α → Bool) (l₂ : List α) :
    ∀ l₁ : List α, l₁.find? p = Option.none →
      (l₁ ++ l₂).find? p = l₂.find? p
  | [], _ => rfl
  | x :: xs, h => by
    by_cases hx : p x
    · rw [List.find?_cons_of_pos _ hx] at h; cases h
    · rw [List.find?_cons_of_neg _ hx] at h
      simpa [List.find?_cons_of_neg _ hx] using find?_append_none p l₂ xs h

theorem Paginator.make_ok (arr : List α) (pg : Int) (P : Paginator α)
    (h : Paginator.make arr pg = .ok P) :
    P.array = arr ∧ P.page = pg ∧ P.len = arr.length ∧ P.pages = arr.length := by
  unfold Paginator.make at h
  split_ifs at h
  cases h
  exact ⟨rfl, rfl, rfl, rfl⟩

/-- C4: constructing `Paginator(S, p)` fails exactly when `S` is empty,
`p < 1`, or `p > len(S)`; on a valid page, `get_item()` returns `S[p-1]`,
`has_next()` returns `p+1` when `p < len(S)` and the none-sentinel (`False`)
otherwise, and `has_previous()` returns `p-1` when `p > 1` and the
none-sentinel otherwise. -/
theorem paginator_spec (α : Type) (S : List α) (p : Int) :
    ((∃ P, Paginator.make S p = .ok P) ↔
      S ≠ [] ∧ 1 ≤ p ∧ p ≤ (S.length : Int)) ∧
    ∀ P, Paginator.make S p = .ok P →
      (∃ x, P.get_item = some x ∧ S.get? (p - 1).toNat = some x) ∧
      P.has_next = (if p < (S.length : Int) then some (p + 1) else Option.none) ∧
      P.has_previous = (if 1 < p then some (p - 1) else Option.none) := by
  constructor
  · unfold Paginator.make
    split_ifs with h1 h2 h3
    · simp only [List.isEmpty_iff] at h1
      subst h1
      simp
    · constructor
      · rintro ⟨P, hP⟩; cases hP
      · rintro ⟨_, h, _⟩; omega
    · constructor
      · rintro ⟨P, hP⟩; cases hP
      · rintro ⟨_, _, h⟩; omega
    · constructor
      · intro _
        refine ⟨?_, by omega, by omega⟩
        intro hS
        subst hS
        simp at h1
      · intro _
        exact ⟨_, rfl⟩
  · intro P hP
    have hcond : S.isEmpty = false ∧ 1 ≤ p ∧ p ≤ (S.length : Int) := by
      unfold Paginator.make at hP
      split_ifs at hP with h1 h2 h3
      exact ⟨by simp_all, by omega, by omega⟩
    obtain ⟨ha, hpg, hlen, hpages⟩ := Paginator.make_ok S p P hP
    have hidx : (p - 1).toNat < S.length := by
      have : S ≠ [] := by
        intro hS; subst hS; simp at hcond
      have : 0 < S.length := List.length_pos.mpr this
      omega
    refine ⟨⟨S.get ⟨(p - 1).toNat, hidx⟩, ?_, (List.get?_eq_get hidx)⟩, ?_, ?_⟩
    · unfold Paginator.get_item
      rw [ha, hpg]
      exact List.get?_eq_get hidx
    · unfold Paginator.has_next
      rw [hpg, hpages]
    · unfold Paginator.has_previous
      rw [hpg]

/-- Witness for C4 at `S = [10, 20, 30]`, `p = 2`: construction succeeds and
the accessors give `20`, page 3 and page 1. -/
theorem paginator_spec_witness :
    (∃ x, (⟨[10, 20, 30], 2, 3, 3⟩ : Paginator Int).get_item = some x ∧
      ([10, 20, 30] : List Int).get? ((2 : Int) - 1).toNat = some x) ∧
    (⟨[10, 20, 30], 2, 3, 3⟩ : Paginator Int).has_next =
      (if (2 : Int) < (([10, 20, 30] : List Int).length : Int) then some ((2 : Int) + 1)
        else Option.none) ∧
    (⟨[10, 20, 30], 2, 3, 3⟩ : Paginator Int).has_previous =
      (if (1 : Int) < 2 then some ((2 : Int) - 1) else Option.none) :=
  (paginator_spec Int [10, 20, 30] 2).2 ⟨[10, 20, 30], 2, 3, 3⟩ rfl

/-- C9: `multiplication` returns the product for a non-negative integer
quantity and non-negative price (`multiplication(2, 1000.0) == 2000.0`),
fails for every non-integer quantity, and fails with three mutually
distinct messages for both-negative, price-negative and quantity-negative
operands. -/
theorem multiplication_spec :
    (∀ (q : Int) (p : ℚ), 0 ≤ q → 0 ≤ p →
      multiplication (.int q) p = .ok (q * p)) ∧
    multiplication (.int 2) 1000 = .ok 2000 ∧
    (∀ (v : PyVal) (p : ℚ), (∀ n : Int, v ≠ .int n) →
      multiplication v p = .error "Quantity must be an integer") ∧
    (∀ (q : Int) (p : ℚ), q < 0 → p < 0 →
      multiplication (.int q) p = .error "Both price and quantity cannot be negative") ∧
    (∀ (q : Int) (p : ℚ), 0 ≤ q → p < 0 →
      multiplication (.int q) p = .error "Price cannot be negative") ∧
    (∀ (q : Int) (p : ℚ), q < 0 → 0 ≤ p →
      multiplication (.int q) p = .error "Quantity cannot be negative") ∧
    ("Both price and quantity cannot be negative" ≠ "Price cannot be negative" ∧
      "Both price and quantity cannot be negative" ≠ "Quantity cannot be negative" ∧
      "Price cannot be negative" ≠ "Quantity cannot be negative") := by
  refine ⟨?_, by norm_num [multiplication], ?_, ?_, ?_, ?_, by decide⟩
  · intro q p hq hp
    have h1 : ¬p < 0 := not_lt.mpr hp
    have h2 : ¬q < 0 := not_lt.mpr hq
    simp [multiplication, h1, h2]
  · intro v p hv
    cases v with
    | int n => exact absurd rfl (hv n)
    | float _ => rfl
    | str _ => rfl
    | none => rfl
  · intro q p hq hp
    simp [multiplication, hp, hq]
  · intro q p hq hp
    have h2 : ¬q < 0 := not_lt.mpr hq
    simp [multiplication, hp, h2]
  · intro q p hq hp
    have h1 : ¬p < 0 := not_lt.mpr hp
    simp [multiplication, h1, hq]

/-- Witness for C9 at the spec's own example inputs. -/
theorem multiplication_spec_witness :
    multiplication (.int 2) 1000 = .ok 2000 ∧
    multiplication (.str "100") 100 = .error "Quantity must be an integer" ∧
    multiplication (.int (-100)) (-1) = .error "Both price and quantity cannot be negative" ∧
    multiplication (.int 100) (-1) = .error "Price cannot be negative" ∧
    multiplication (.int (-2)) 10000 = .error "Quantity cannot be negative" :=
  ⟨by rw [multiplication_spec.1 2 1000 (by norm_num) (by norm_num)]; norm_num,
    multiplication_spec.2.2.1 (.str "100") 100 (fun n h => PyVal.noConfusion h),
    multiplication_spec.2.2.2.1 (-100) (-1) (by norm_num) (by norm_num),
    multiplication_spec.2.2.2.2.1 100 (-1) (by norm_num) (by norm_num),
    multiplication_spec.2.2.2.2.2.1 (-2) 10000 (by norm_num) (by norm_num)⟩

/-- C7: the global "назад" command on the first product step leaves the
step unchanged with an informational reply; on each later step of the
6-step flow it moves one step back and re-displays that step's re-prompt
text from `AddProduct.texts`. -/
theorem back_step_spec :
    back_step (some .apName) =
      (some .apName,
        ["Предыдущего шага нет. Введите название товара или напишите \"отмена\""]) ∧
    back_step (some .apDescription) =
      (some .apName, ["Вы вернулись к прошлому шагу \n " ++ texts .apName]) ∧
    back_step (some .apCategory) =
      (some .apDescription, ["Вы вернулись к прошлому шагу \n " ++ texts .apDescription]) ∧
    back_step (some .apPrice) =
      (some .apCategory, ["Вы вернулись к прошлому шагу \n " ++ texts .apCategory]) ∧
    back_step (some .apQuantity) =
      (some .apPrice, ["Вы вернулись к прошлому шагу \n " ++ texts .apPrice]) ∧
    back_step (some .apImage) =
      (some .apQuantity, ["Вы вернулись к прошлому шагу \n " ++ texts .apQuantity]) := by
  exact ⟨rfl, rfl, rfl, rfl, rfl, rfl⟩

/-- C10: "назад" received in the banner flow's `Banner.image` state leaves
the state unchanged and sends no reply at all, because `back_step` only
special-cases `AddProduct.name` and only iterates `AddProduct.__all_states__`;
its "no previous step" message is produced in no other state than
`AddProduct.name`. -/
theorem back_step_banner_spec :
    back_step (some .bannerImage) = (some .bannerImage, []) ∧
    ∀ st : Option WizState, st ≠ some WizState.apName →
      ((back_step st).2.contains
        "Предыдущего шага нет. Введите название товара или напишите \"отмена\"") = false := by
  exact ⟨rfl, by decide⟩

/-- Witness for C10's quantified part at the banner state. -/
theorem back_step_banner_witness :
    ((back_step (some .bannerImage)).2.contains
      "Предыдущего шага нет. Введите название товара или напишите \"отмена\"") = false :=
  back_step_banner_spec.2 (some .bannerImage) (by decide)

/-- C5 counterexample: on the description step with no target product set,
the sentinel "." is NOT rejected — the handler stores "." verbatim as the
description and advances to the category step. -/
theorem sentinel_no_target_counterexample :
    (add_description
        ⟨Option.none, Option.none, Option.none, Option.none, Option.none, Option.none⟩
        Option.none ".").data.description = some "." ∧
    (add_description
        ⟨Option.none, Option.none, Option.none, Option.none, Option.none, Option.none⟩
        Option.none ".").state = some WizState.apCategory := by
  exact ⟨rfl, rfl⟩

/-- C5 amended: with a target product set, "." on each free-text step copies
that product's field verbatim and advances; with no target set, "." is
treated as ordinary input — the name and description steps store "."
verbatim and advance, and only the price and quantity steps reject it
(because `float(".")`/`int(".")` raise), staying on the step with nothing
stored. -/
theorem sentinel_spec (d : WizData) (prod : Product) :
    add_name d (some prod) "." =
      ⟨{ d with name := some prod.name }, some .apDescription, ["Введите описание товара"]⟩ ∧
    add_description d (some prod) "." =
      ⟨{ d with description := some prod.description }, some .apCategory, ["Выберите категорию"]⟩ ∧
    add_price d (some prod) "." =
      ⟨{ d with price := some (.float prod.price) }, some .apQuantity, ["Введите количество товаров"]⟩ ∧
    add_quantity d (some prod) "." =
      ⟨{ d with quantity := some (.int prod.quantity) }, some .apImage, ["Загрузите изображение товара"]⟩ ∧
    add_name d Option.none "." =
      ⟨{ d with name := some "." }, some .apDescription, ["Введите описание товара"]⟩ ∧
    add_description d Option.none "." =
      ⟨{ d with description := some "." }, some .apCategory, ["Выберите категорию"]⟩ ∧
    add_price d Option.none "." =
      ⟨d, some .apPrice, ["Введите корректное значение цены"]⟩ ∧
    add_quantity d Option.none "." =
      ⟨d, some .apQuantity, ["Введите корректное значение количества товара"]⟩ := by
  exact ⟨rfl, rfl, rfl, rfl, rfl, rfl, rfl, rfl⟩

/-- C6 counterexample: a negative price "-5" and a negative quantity "-3"
pass `float()`/`int()` parsing, so they are stored in the collected fields
and the wizard advances — they are not rejected. -/
theorem negative_input_counterexample :
    add_price ⟨Option.none, Option.none, Option.none, Option.none, Option.none, Option.none⟩
        Option.none "-5" =
      ⟨⟨Option.none, Option.none, Option.none, some (.str "-5"), Option.none, Option.none⟩,
        some .apQuantity, ["Введите количество товаров"]⟩ ∧
    add_quantity ⟨Option.none, Option.none, Option.none, Option.none, Option.none, Option.none⟩
        Option.none "-3" =
      ⟨⟨Option.none, Option.none, Option.none, Option.none, some (.str "-3"), Option.none⟩,
        some .apImage, ["Загрузите изображение товара"]⟩ := by
  exact ⟨rfl, rfl⟩

theorem add_price_no_sentinel (d : WizData) (target : Option Product) (t : String)
    (h : t = "." → target = Option.none) :
    add_price d target t =
      if pyFloatParses t then
        ⟨{ d with price := some (.str t) }, some .apQuantity, ["Введите количество товаров"]⟩
      else ⟨d, some .apPrice, ["Введите корректное значение цены"]⟩ := by
  unfold add_price
  cases hb : t == "." with
  | false => cases target <;> rfl
  | true =>
    have ht : target = Option.none := h (by simpa using hb)
    subst ht
    rfl

theorem add_quantity_no_sentinel (d : WizData) (target : Option Product) (t : String)
    (h : t = "." → target = Option.none) :
    add_quantity d target t =
      if pyIntParses t then
        ⟨{ d with quantity := some (.str t) }, some .apImage, ["Загрузите изображение товара"]⟩
      else ⟨d, some .apQuantity, ["Введите корректное значение количества товара"]⟩ := by
  unfold add_quantity
  cases hb : t == "." with
  | false => cases target <;> rfl
  | true =>
    have ht : target = Option.none := h (by simpa using hb)
    subst ht
    rfl

/-- C6 amended: at the price (resp. quantity) step, input that fails
`float(...)` (resp. `int(...)`) parsing leaves the wizard on the same step,
stores no field, and re-prompts; input that parses — including negative
numerals such as "-5" — is stored and the wizard advances.  (The sentinel
case `t = "."` with a target set is the separate keep-default path.) -/
theorem price_quantity_validation_spec (d : WizData) (target : Option Product)
    (t : String) (h : t = "." → target = Option.none) :
    (pyFloatParses t = false →
      add_price d target t = ⟨d, some .apPrice, ["Введите корректное значение цены"]⟩) ∧
    (pyFloatParses t = true →
      add_price d target t =
        ⟨{ d with price := some (.str t) }, some .apQuantity, ["Введите количество товаров"]⟩) ∧
    (pyIntParses t = false →
      add_quantity d target t =
        ⟨d, some .apQuantity, ["Введите корректное значение количества товара"]⟩) ∧
    (pyIntParses t = true →
      add_quantity d target t =
        ⟨{ d with quantity := some (.str t) }, some .apImage, ["Загрузите изображение товара"]⟩) := by
  refine ⟨?_, ?_, ?_, ?_⟩ <;> intro hp
  · rw [add_price_no_sentinel d target t h, hp]; rfl
  · rw [add_price_no_sentinel d target t h, hp]; rfl
  · rw [add_quantity_no_sentinel d target t h, hp]; rfl
  · rw [add_quantity_no_sentinel d target t h, hp]; rfl

/-- Witness for C6 amended: the rejected input "abc" and the accepted
input "19.99" at the price step, with no target set. -/
theorem price_quantity_validation_witness :
    add_price ⟨Option.none, Option.none, Option.none, Option.none, Option.none, Option.none⟩
        Option.none "abc" =
      ⟨⟨Option.none, Option.none, Option.none, Option.none, Option.none, Option.none⟩,
        some .apPrice, ["Введите корректное значение цены"]⟩ ∧
    add_price ⟨Option.none, Option.none, Option.none, Option.none, Option.none, Option.none⟩
        Option.none "19.99" =
      ⟨⟨Option.none, Option.none, Option.none, some (.str "19.99"), Option.none, Option.none⟩,
        some .apQuantity, ["Введите количество товаров"]⟩ :=
  ⟨(price_quantity_validation_spec _ Option.none "abc" (fun _ => rfl)).1 rfl,
    (price_quantity_validation_spec _ Option.none "19.99"
      (fun h => absurd h (by decide))).2.1 rfl⟩

theorem DB_findProduct_update (ps : List Product) (cs : List Cart) (pid : Int)
    (f : Product → Product) (hid : ∀ a, (f a).id = a.id) (pr : Product)
    (h : ps.find? (fun p => p.id == pid) = some pr) :
    (DB.mk (updateFirstP (fun p => p.id == pid) f ps) cs).findProduct pid = some (f pr) := by
  unfold DB.findProduct
  rw [show (DB.mk (updateFirstP (fun p => p.id == pid) f ps) cs).products =
      updateFirstP (fun p => p.id == pid) f ps from rfl]
  rw [find?_updateFirstP (fun p => p.id == pid) f (fun a => by simp [hid a]) ps, h]
  rfl

theorem DB_findCart_update (ps : List Product) (cs : List Cart) (u pid : Int)
    (f : Cart → Cart)
    (hkey : ∀ a, (f a).user_id = a.user_id ∧ (f a).product_id = a.product_id)
    (c : Cart)
    (h : cs.find? (fun c0 => c0.user_id == u && c0.product_id == pid) = some c) :
    (DB.mk ps (updateFirstP (fun c0 => c0.user_id == u && c0.product_id == pid) f cs)).findCart
      u pid = some (f c) := by
  unfold DB.findCart
  rw [show (DB.mk ps (updateFirstP (fun c0 => c0.user_id == u && c0.product_id == pid) f cs)).carts =
      updateFirstP (fun c0 => c0.user_id == u && c0.product_id == pid) f cs from rfl]
  rw [find?_updateFirstP (fun c0 => c0.user_id == u && c0.product_id == pid) f
      (fun a => by simp [(hkey a).1, (hkey a).2]) cs, h]
  rfl

theorem DB_findCart_appended (ps : List Product) (cs : List Cart) (u pid : Int)
    (c : Cart) (hu : c.user_id = u) (hp : c.product_id = pid)
    (h : cs.find? (fun c0 => c0.user_id == u && c0.product_id == pid) = Option.none) :
    (DB.mk ps (cs ++ [c])).findCart u pid = some c := by
  unfold DB.findCart
  rw [show (DB.mk ps (cs ++ [c])).carts = cs ++ [c] from rfl]
  rw [find?_append_none _ _ cs h, List.find?_cons_of_pos]
  simp [hu, hp]

theorem DB_findCart_erased (ps : List Product) (cs : List Cart) (u pid : Int)
    (h : cs.countP (fun c0 => c0.user_id == u && c0.product_id == pid) ≤ 1) :
    (DB.mk ps (cs.eraseP (fun c0 => c0.user_id == u && c0.product_id == pid))).findCart
      u pid = Option.none := by
  unfold DB.findCart
  exact find?_eraseP_of_countP_le_one _ cs h

/-- C2: `orm_add_to_cart` returns `False` and leaves both tables unchanged
when the product is absent or its quantity is `<= 0`; otherwise it returns
`True`, decrements that product's quantity by exactly 1, and either
increments the existing (user, product) cart line by 1 or creates a new one
with quantity 1. -/
theorem add_to_cart_spec (s : DB) (u pid : Int) :
    ((∀ pr, s.findProduct pid = some pr → pr.quantity ≤ 0) →
      orm_add_to_cart s u pid = (s, false)) ∧
    (∀ pr, s.findProduct pid = some pr → 0 < pr.quantity →
      (orm_add_to_cart s u pid).2 = true ∧
      (orm_add_to_cart s u pid).1.findProduct pid =
        some { pr with quantity := pr.quantity - 1 } ∧
      (∀ c, s.findCart u pid = some c →
        (orm_add_to_cart s u pid).1.findCart u pid =
          some { c with quantity := c.quantity + 1 }) ∧
      (s.findCart u pid = Option.none →
        ∃ c, (orm_add_to_cart s u pid).1.findCart u pid = some c ∧
          c.user_id = u ∧ c.product_id = pid ∧ c.quantity = 1)) := by
  constructor
  · intro h
    unfold orm_add_to_cart
    cases hfp : s.findProduct pid with
    | none => rfl
    | some pr => simp only [if_pos (h pr hfp)]
  · intro pr hfp hq
    have hfp' : s.products.find? (fun p => p.id == pid) = some pr := hfp
    have hq' : ¬pr.quantity ≤ 0 := by omega
    cases hfc : s.findCart u pid with
    | some c =>
      have hfc' : s.carts.find? (fun c0 => c0.user_id == u && c0.product_id == pid) =
          some c := hfc
      have hout : orm_add_to_cart s u pid =
          ({ products := updateFirstP (fun p => p.id == pid)
                (fun p => { p with quantity := p.quantity - 1 }) s.products,
             carts := updateFirstP (fun c0 => c0.user_id == u && c0.product_id == pid)
                (fun c0 => { c0 with quantity := c0.quantity + 1 }) s.carts }, true) := by
        unfold orm_add_to_cart
        rw [show s.findProduct pid = some pr from hfp]
        simp only [if_neg hq']
        rw [show s.findCart u pid = some c from hfc]
      rw [hout]
      refine ⟨rfl, ?_, ?_, ?_⟩
      · exact DB_findProduct_update s.products _ pid
          (fun p => { p with quantity := p.quantity - 1 }) (fun a => rfl) pr hfp'
      · intro c0 hc0
        cases Option.some.inj hc0
        exact DB_findCart_update s.products s.carts u pid
          (fun c0 => { c0 with quantity := c0.quantity + 1 }) (fun a => ⟨rfl, rfl⟩) c hfc'
      · intro hnone
        exact Option.noConfusion hnone
    | none =>
      have hfc' : s.carts.find? (fun c0 => c0.user_id == u && c0.product_id == pid) =
          Option.none := hfc
      have hout : orm_add_to_cart s u pid =
          ({ products := updateFirstP (fun p => p.id == pid)
                (fun p => { p with quantity := p.quantity - 1 }) s.products,
             carts := s.carts ++ [⟨nextCartId s.carts, u, pid, 1⟩] }, true) := by
        unfold orm_add_to_cart
        rw [show s.findProduct pid = some pr from hfp]
        simp only [if_neg hq']
        rw [show s.findCart u pid = Option.none from hfc]
      rw [hout]
      refine ⟨rfl, ?_, ?_, ?_⟩
      · exact DB_findProduct_update s.products _ pid
          (fun p => { p with quantity := p.quantity - 1 }) (fun a => rfl) pr hfp'
      · intro c0 hc0
        exact Option.noConfusion hc0
      · intro _
        exact ⟨⟨nextCartId s.carts, u, pid, 1⟩,
          DB_findCart_appended s.products s.carts u pid _ rfl rfl hfc', rfl, rfl, rfl⟩

/-- Witness for C2: the out-of-stock case at quantity 0 and the success
case at quantity 2 with an empty cart. -/
theorem add_to_cart_witness :
    orm_add_to_cart ⟨[⟨1, "n", "d", 10, "i", 1, 0⟩], []⟩ 7 1 =
      (⟨[⟨1, "n", "d", 10, "i", 1, 0⟩], []⟩, false) ∧
    (orm_add_to_cart ⟨[⟨1, "n", "d", 10, "i", 1, 2⟩], []⟩ 7 1).2 = true ∧
    (orm_add_to_cart ⟨[⟨1, "n", "d", 10, "i", 1, 2⟩], []⟩ 7 1).1.findProduct 1 =
      some { id := 1, name := "n", description := "d", price := 10, image := "i",
             category_id := 1, quantity := 2 - 1 } ∧
    (∃ c, (orm_add_to_cart ⟨[⟨1, "n", "d", 10, "i", 1, 2⟩], []⟩ 7 1).1.findCart 7 1 =
        some c ∧ c.user_id = 7 ∧ c.product_id = 1 ∧ c.quantity = 1) :=
  ⟨(add_to_cart_spec ⟨[⟨1, "n", "d", 10, "i", 1, 0⟩], []⟩ 7 1).1
      (fun pr h => by cases Option.some.inj h; decide),
    ((add_to_cart_spec ⟨[⟨1, "n", "d", 10, "i", 1, 2⟩], []⟩ 7 1).2
        ⟨1, "n", "d", 10, "i", 1, 2⟩ rfl (by decide)).1,
    ((add_to_cart_spec ⟨[⟨1, "n", "d", 10, "i", 1, 2⟩], []⟩ 7 1).2
        ⟨1, "n", "d", 10, "i", 1, 2⟩ rfl (by decide)).2.1,
    ((add_to_cart_spec ⟨[⟨1, "n", "d", 10, "i", 1, 2⟩], []⟩ 7 1).2
        ⟨1, "n", "d", 10, "i", 1, 2⟩ rfl (by decide)).2.2.2 rfl⟩

/-- C3: `orm_reduce_product_in_cart` on a (user, product) pair returns
`False` and changes nothing when no cart line exists; when the line's
quantity is `> 1` it decrements the line by 1, increments the product's
quantity by 1 and returns `True`; when the quantity is exactly 1 it deletes
the line, increments the product's quantity by 1 and returns `False`. -/
theorem reduce_cart_spec (s : DB) (u pid : Int) :
    (s.findCart u pid = Option.none →
      orm_reduce_product_in_cart s u pid = some (s, false)) ∧
    (∀ c pr, s.findCart u pid = some c → s.findProduct c.product_id = some pr →
      (1 < c.quantity →
        ∃ out, orm_reduce_product_in_cart s u pid = some out ∧ out.2 = true ∧
          out.1.findCart u pid = some { c with quantity := c.quantity - 1 } ∧
          out.1.findProduct c.product_id =
            some { pr with quantity := pr.quantity + 1 }) ∧
      (c.quantity = 1 →
        s.carts.countP (fun c0 => c0.user_id == u && c0.product_id == pid) ≤ 1 →
        ∃ out, orm_reduce_product_in_cart s u pid = some out ∧ out.2 = false ∧
          out.1.findCart u pid = Option.none ∧
          out.1.findProduct c.product_id =
            some { pr with quantity := pr.quantity + 1 })) := by
  constructor
  · intro h
    unfold orm_reduce_product_in_cart
    rw [show s.findCart u pid = Option.none from h]
  · intro c pr hfc hfp
    have hfc' : s.carts.find? (fun c0 => c0.user_id == u && c0.product_id == pid) =
        some c := hfc
    have hfp' : s.products.find? (fun p => p.id == c.product_id) = some pr := hfp
    constructor
    · intro hq
      have hout : orm_reduce_product_in_cart s u pid =
          some (⟨updateFirstP (fun p => p.id == c.product_id)
              (fun p => { p with quantity := p.quantity + 1 }) s.products,
            updateFirstP (fun c0 => c0.user_id == u && c0.product_id == pid)
              (fun c0 => { c0 with quantity := c0.quantity - 1 }) s.carts⟩, true) := by
        unfold orm_reduce_product_in_cart
        simp only [hfc, hfp, hq, if_true]
      refine ⟨_, hout, rfl, ?_, ?_⟩
      · exact DB_findCart_update s.products s.carts u pid
          (fun c0 => { c0 with quantity := c0.quantity - 1 }) (fun a => ⟨rfl, rfl⟩) c hfc'
      · exact DB_findProduct_update s.products _ c.product_id
          (fun p => { p with quantity := p.quantity + 1 }) (fun a => rfl) pr hfp'
    · intro hq1 hcount
      have hout : orm_reduce_product_in_cart s u pid =
          some (⟨updateFirstP (fun p => p.id == c.product_id)
              (fun p => { p with quantity := p.quantity + 1 }) s.products,
            s.carts.eraseP
              (fun c0 => c0.user_id == u && c0.product_id == pid)⟩, false) := by
        unfold orm_reduce_product_in_cart
        simp only [hfc, hfp, hq1]
        norm_num
      refine ⟨_, hout, rfl, ?_, ?_⟩
      · exact DB_findCart_erased s.products s.carts u pid hcount
      · exact DB_findProduct_update s.products _ c.product_id
          (fun p => { p with quantity := p.quantity + 1 }) (fun a => rfl) pr hfp'

/-- Witness for C3: the no-line case on an empty database, a line at
quantity 2 (decrement path) and a line at quantity 1 (deletion path). -/
theorem reduce_cart_witness :
    orm_reduce_product_in_cart ⟨[], []⟩ 7 1 = some (⟨[], []⟩, false) ∧
    (∃ out, orm_reduce_product_in_cart
        ⟨[⟨1, "n", "d", 10, "i", 1, 5⟩], [⟨1, 7, 1, 2⟩]⟩ 7 1 = some out ∧
      out.2 = true ∧
      out.1.findCart 7 1 = some { id := 1, user_id := 7, product_id := 1, quantity := 2 - 1 } ∧
      out.1.findProduct 1 =
        some { id := 1, name := "n", description := "d", price := 10, image := "i",
               category_id := 1, quantity := 5 + 1 }) ∧
    (∃ out, orm_reduce_product_in_cart
        ⟨[⟨1, "n", "d", 10, "i", 1, 5⟩], [⟨1, 7, 1, 1⟩]⟩ 7 1 = some out ∧
      out.2 = false ∧
      out.1.findCart 7 1 = Option.none ∧
      out.1.findProduct 1 =
        some { id := 1, name := "n", description := "d", price := 10, image := "i",
               category_id := 1, quantity := 5 + 1 }) :=
  ⟨(reduce_cart_spec ⟨[], []⟩ 7 1).1 rfl,
    ((reduce_cart_spec ⟨[⟨1, "n", "d", 10, "i", 1, 5⟩], [⟨1, 7, 1, 2⟩]⟩ 7 1).2
        ⟨1, 7, 1, 2⟩ ⟨1, "n", "d", 10, "i", 1, 5⟩ rfl rfl).1 (by decide),
    ((reduce_cart_spec ⟨[⟨1, "n", "d", 10, "i", 1, 5⟩], [⟨1, 7, 1, 1⟩]⟩ 7 1).2
        ⟨1, 7, 1, 1⟩ ⟨1, "n", "d", 10, "i", 1, 5⟩ rfl rfl).2 rfl (by decide)⟩

theorem conservedTotal_eq_wsum (s : DB) (qid : Int) :
    conservedTotal s qid =
      (s.products.map (fun p => if p.id == qid then p.quantity else 0)).sum +
      (s.carts.map (fun c => if c.product_id == qid then c.quantity else 0)).sum := by
  unfold conservedTotal
  rw [filter_map_sum, filter_map_sum]

theorem conserved_add (s : DB) (u pid qid : Int) :
    conservedTotal (orm_add_to_cart s u pid).1 qid = conservedTotal s qid := by
  cases hfp : s.findProduct pid with
  | none =>
    unfold orm_add_to_cart
    rw [hfp]
  | some pr =>
    have hfp' : s.products.find? (fun p => p.id == pid) = some pr := hfp
    have hpid : pr.id = pid := by
      have := List.find?_some hfp'
      simpa using this
    by_cases hq : pr.quantity ≤ 0
    · unfold orm_add_to_cart
      rw [hfp]
      simp only [if_pos hq]
    · cases hfc : s.findCart u pid with
      | some c =>
        have hfc' : s.carts.find? (fun c0 => c0.user_id == u && c0.product_id == pid) =
            some c := hfc
        have hcid : c.product_id = pid := by
          have := List.find?_some hfc'
          simp only [Bool.and_eq_true, beq_iff_eq] at this
          exact this.2
        have hout : (orm_add_to_cart s u pid).1 =
            ⟨updateFirstP (fun p => p.id == pid)
                (fun p => { p with quantity := p.quantity - 1 }) s.products,
              updateFirstP (fun c0 => c0.user_id == u && c0.product_id == pid)
                (fun c0 => { c0 with quantity := c0.quantity + 1 }) s.carts⟩ := by
          unfold orm_add_to_cart
          rw [hfp]
          simp only [if_neg hq]
          rw [hfc]
        have h1 := updateFirstP_map_sum (fun p => p.id == pid)
          (fun p => { p with quantity := p.quantity - 1 })
          (fun p => if p.id == qid then p.quantity else 0) s.products pr hfp'
        have h2 := updateFirstP_map_sum (fun c0 => c0.user_id == u && c0.product_id == pid)
          (fun c0 => { c0 with quantity := c0.quantity + 1 })
          (fun c0 => if c0.product_id == qid then c0.quantity else 0) s.carts c hfc'
        simp only at h1 h2
        rw [hout, conservedTotal_eq_wsum, conservedTotal_eq_wsum]
        show (_ : Int) + _ = _
        rw [show (⟨_, _⟩ : DB).products = updateFirstP (fun p => p.id == pid)
            (fun p => { p with quantity := p.quantity - 1 }) s.products from rfl]
        rw [show (⟨_, _⟩ : DB).carts = updateFirstP
            (fun c0 => c0.user_id == u && c0.product_id == pid)
            (fun c0 => { c0 with quantity := c0.quantity + 1 }) s.carts from rfl]
        rw [h1, h2, hpid, hcid]
        by_cases hpq : pid = qid <;> simp [hpq] <;> ring
      | none =>
        have hfc' : s.carts.find? (fun c0 => c0.user_id == u && c0.product_id == pid) =
            Option.none := hfc
        have hout : (orm_add_to_cart s u pid).1 =
            ⟨updateFirstP (fun p => p.id == pid)
                (fun p => { p with quantity := p.quantity - 1 }) s.products,
              s.carts ++ [⟨nextCartId s.carts, u, pid, 1⟩]⟩ := by
          unfold orm_add_to_cart
          rw [hfp]
          simp only [if_neg hq]
          rw [hfc]
        have h1 := updateFirstP_map_sum (fun p => p.id == pid)
          (fun p => { p with quantity := p.quantity - 1 })
          (fun p => if p.id == qid then p.quantity else 0) s.products pr hfp'
        simp only at h1
        rw [hout, conservedTotal_eq_wsum, conservedTotal_eq_wsum]
        show (_ : Int) + _ = _
        rw [show (⟨_, _⟩ : DB).products = updateFirstP (fun p => p.id == pid)
            (fun p => { p with quantity := p.quantity - 1 }) s.products from rfl]
        rw [show (⟨_, _⟩ : DB).carts = s.carts ++ [⟨nextCartId s.carts, u, pid, 1⟩] from rfl]
        rw [h1, hpid, List.map_append, List.sum_append]
        simp only [List.map_cons, List.map_nil, List.sum_cons, List.sum_nil]
        by_cases hpq : pid = qid <;> simp [hpq] <;> ring

theorem conserved_reduce (s : DB) (u pid qid : Int)
    (hq : ∀ c ∈ s.carts, 1 ≤ c.quantity) :
    ∀ out, orm_reduce_product_in_cart s u pid = some out →
      conservedTotal out.1 qid = conservedTotal s qid := by
  intro out hout
  cases hfc : s.findCart u pid with
  | none =>
    unfold orm_reduce_product_in_cart at hout
    rw [hfc] at hout
    cases Option.some.inj hout
    rfl
  | some c =>
    have hfc' : s.carts.find? (fun c0 => c0.user_id == u && c0.product_id == pid) =
        some c := hfc
    have hcq : 1 ≤ c.quantity := hq c (List.mem_of_find?_eq_some hfc')
    cases hfp : s.findProduct c.product_id with
    | none =>
      unfold orm_reduce_product_in_cart at hout
      simp only [hfc, hfp] at hout
      exact Option.noConfusion hout
    | some pr =>
      have hfp' : s.products.find? (fun p => p.id == c.product_id) = some pr := hfp
      have h1 := updateFirstP_map_sum (fun p => p.id == c.product_id)
        (fun p => { p with quantity := p.quantity + 1 })
        (fun p => if p.id == qid then p.quantity else 0) s.products pr hfp'
      have hpid : pr.id = c.product_id := by
        have := List.find?_some hfp'
        simpa using this
      simp only at h1
      by_cases hq1 : 1 < c.quantity
      · have hst : out.1 =
            ⟨updateFirstP (fun p => p.id == c.product_id)
                (fun p => { p with quantity := p.quantity + 1 }) s.products,
              updateFirstP (fun c0 => c0.user_id == u && c0.product_id == pid)
                (fun c0 => { c0 with quantity := c0.quantity - 1 }) s.carts⟩ := by
          unfold orm_reduce_product_in_cart at hout
          simp only [hfc, hfp, hq1, if_true] at hout
          cases Option.some.inj hout
          rfl
        have h2 := updateFirstP_map_sum (fun c0 => c0.user_id == u && c0.product_id == pid)
          (fun c0 => { c0 with quantity := c0.quantity - 1 })
          (fun c0 => if c0.product_id == qid then c0.quantity else 0) s.carts c hfc'
        simp only at h2
        rw [hst, conservedTotal_eq_wsum, conservedTotal_eq_wsum]
        show (_ : Int) + _ = _
        rw [show (⟨_, _⟩ : DB).products = updateFirstP (fun p => p.id == c.product_id)
            (fun p => { p with quantity := p.quantity + 1 }) s.products from rfl]
        rw [show (⟨_, _⟩ : DB).carts = updateFirstP
            (fun c0 => c0.user_id == u && c0.product_id == pid)
            (fun c0 => { c0 with quantity := c0.quantity - 1 }) s.carts from rfl]
        rw [h1, h2, hpid]
        by_cases hpq : c.product_id = qid <;> simp [hpq] <;> ring
      · have hcq1 : c.quantity = 1 := by omega
        have hst : out.1 =
            ⟨updateFirstP (fun p => p.id == c.product_id)
                (fun p => { p with quantity := p.quantity + 1 }) s.products,
              s.carts.eraseP (fun c0 => c0.user_id == u && c0.product_id == pid)⟩ := by
          unfold orm_reduce_product_in_cart at hout
          simp only [hfc, hfp, hq1, if_false] at hout
          cases Option.some.inj hout
          rfl
        have h2 := eraseP_map_sum (fun c0 => c0.user_id == u && c0.product_id == pid)
          (fun c0 => if c0.product_id == qid then c0.quantity else 0) s.carts c hfc'
        simp only at h2
        rw [hst, conservedTotal_eq_wsum, conservedTotal_eq_wsum]
        show (_ : Int) + _ = _
        rw [show (⟨_, _⟩ : DB).products = updateFirstP (fun p => p.id == c.product_id)
            (fun p => { p with quantity := p.quantity + 1 }) s.products from rfl]
        rw [show (⟨_, _⟩ : DB).carts =
            s.carts.eraseP (fun c0 => c0.user_id == u && c0.product_id == pid) from rfl]
        rw [h1, h2, hpid, hcq1]
        by_cases hpq : c.product_id = qid <;> simp [hpq] <;> ring

theorem conserved_delete (s : DB) (u pid qid : Int) :
    ∀ s1, orm_delete_from_cart s u pid = some s1 →
      conservedTotal s1 qid = conservedTotal s qid := by
  intro s1 hout
  cases hfc : s.findCart u pid with
  | none =>
    unfold orm_delete_from_cart at hout
    rw [hfc] at hout
    cases Option.some.inj hout
    rfl
  | some c =>
    have hfc' : s.carts.find? (fun c0 => c0.user_id == u && c0.product_id == pid) =
        some c := hfc
    cases hfp : s.findProduct c.product_id with
    | none =>
      unfold orm_delete_from_cart at hout
      simp only [hfc, hfp] at hout
      exact Option.noConfusion hout
    | some pr =>
      have hfp' : s.products.find? (fun p => p.id == c.product_id) = some pr := hfp
      have hpid : pr.id = c.product_id := by
        have := List.find?_some hfp'
        simpa using this
      have hst : s1 =
          ⟨updateFirstP (fun p => p.id == c.product_id)
              (fun p => { p with quantity := p.quantity + c.quantity }) s.products,
            s.carts.eraseP (fun c0 => c0.user_id == u && c0.product_id == pid)⟩ := by
        unfold orm_delete_from_cart at hout
        simp only [hfc, hfp] at hout
        cases Option.some.inj hout
        rfl
      have h1 := updateFirstP_map_sum (fun p => p.id == c.product_id)
        (fun p => { p with quantity := p.quantity + c.quantity })
        (fun p => if p.id == qid then p.quantity else 0) s.products pr hfp'
      have h2 := eraseP_map_sum (fun c0 => c0.user_id == u && c0.product_id == pid)
        (fun c0 => if c0.product_id == qid then c0.quantity else 0) s.carts c hfc'
      simp only at h1 h2
      rw [hst, conservedTotal_eq_wsum, conservedTotal_eq_wsum]
      show (_ : Int) + _ = _
      rw [show (⟨_, _⟩ : DB).products = updateFirstP (fun p => p.id == c.product_id)
          (fun p => { p with quantity := p.quantity + c.quantity }) s.products from rfl]
      rw [show (⟨_, _⟩ : DB).carts =
          s.carts.eraseP (fun c0 => c0.user_id == u && c0.product_id == pid) from rfl]
      rw [h1, h2, hpid]
      by_cases hpq : c.product_id = qid <;> simp [hpq] <;> ring

/-- C1 counterexample: the conservation claim quantified over *every*
starting state fails.  In a state holding a cart line of quantity 0 (a
state no integrity constraint of the schema forbids), `orm_reduce_product_in_cart`
takes the deletion branch, adds 1 to the product's stock while removing a
line of quantity 0: the conserved sum rises from 5 to 6. -/
theorem conservation_counterexample :
    orm_reduce_product_in_cart
        ⟨[⟨1, "n", "d", 10, "i", 1, 5⟩], [⟨1, 1, 1, 0⟩]⟩ 1 1 =
      some (⟨[⟨1, "n", "d", 10, "i", 1, 6⟩], []⟩, false) ∧
    conservedTotal ⟨[⟨1, "n", "d", 10, "i", 1, 6⟩], []⟩ 1 = 6 ∧
    conservedTotal ⟨[⟨1, "n", "d", 10, "i", 1, 5⟩], [⟨1, 1, 1, 0⟩]⟩ 1 = 5 := by
  refine ⟨?_, by decide, by decide⟩
  rfl

/-- C1 amended: for every starting state all of whose cart lines have
quantity ≥ 1 (which is true of every state the engine itself produces),
every completed cart operation — `orm_add_to_cart`,
`orm_reduce_product_in_cart`, `orm_delete_from_cart` — preserves, for every
product id, the sum of the product-table stock and the cart-line total for
that id. -/
theorem conservation_cart_ops (s : DB) (u pid qid : Int)
    (hq : ∀ c ∈ s.carts, 1 ≤ c.quantity) :
    conservedTotal (orm_add_to_cart s u pid).1 qid = conservedTotal s qid ∧
    (∀ out, orm_reduce_product_in_cart s u pid = some out →
      conservedTotal out.1 qid = conservedTotal s qid) ∧
    (∀ s1, orm_delete_from_cart s u pid = some s1 →
      conservedTotal s1 qid = conservedTotal s qid) :=
  ⟨conserved_add s u pid qid, conserved_reduce s u pid qid hq,
    conserved_delete s u pid qid⟩

/-- Witness for C1 amended at a one-product, one-line state: all three
operations preserve the conserved sum. -/
theorem conservation_cart_ops_witness :
    conservedTotal (orm_add_to_cart ⟨[⟨1, "n", "d", 10, "i", 1, 5⟩], [⟨1, 7, 1, 2⟩]⟩ 7 1).1 1 =
      conservedTotal ⟨[⟨1, "n", "d", 10, "i", 1, 5⟩], [⟨1, 7, 1, 2⟩]⟩ 1 ∧
    (∀ out, orm_reduce_product_in_cart ⟨[⟨1, "n", "d", 10, "i", 1, 5⟩], [⟨1, 7, 1, 2⟩]⟩ 7 1 =
        some out →
      conservedTotal out.1 1 = conservedTotal ⟨[⟨1, "n", "d", 10, "i", 1, 5⟩], [⟨1, 7, 1, 2⟩]⟩ 1) ∧
    (∀ s1, orm_delete_from_cart ⟨[⟨1, "n", "d", 10, "i", 1, 5⟩], [⟨1, 7, 1, 2⟩]⟩ 7 1 = some s1 →
      conservedTotal s1 1 = conservedTotal ⟨[⟨1, "n", "d", 10, "i", 1, 5⟩], [⟨1, 7, 1, 2⟩]⟩ 1) :=
  conservation_cart_ops ⟨[⟨1, "n", "d", 10, "i", 1, 5⟩], [⟨1, 7, 1, 2⟩]⟩ 7 1 1
    (by decide)

theorem cartsRender_empty (s : DB) (u pg : Int)
    (h : (s.carts.filter (fun c => c.user_id == u)).isEmpty = true) :
    cartsRender s u pg = some (s, .boolPair false false) := by
  unfold cartsRender
  simp only [h, if_true]

theorem cartsRender_view (s : DB) (u pg : Int) (st : DB) (m : CartMedia) (kb : CartKb)
    (h : cartsRender s u pg = some (st, .view m kb)) :
    st = s ∧ kb.page = pg ∧ m.pag_page = pg := by
  unfold cartsRender at h
  by_cases he : (s.carts.filter (fun c => c.user_id == u)).isEmpty = true
  · simp only [he, if_true] at h
    exact absurd (Option.some.inj h) (by simp)
  · simp only [he, Bool.false_eq_true, if_false] at h
    cases hmk : Paginator.make (s.carts.filter (fun c => c.user_id == u)) pg with
    | error e =>
      simp only [hmk] at h
      exact Option.noConfusion h
    | ok pag =>
      simp only [hmk] at h
      cases hget : pag.get_item with
      | none =>
        simp only [hget] at h
        exact Option.noConfusion h
      | some cart =>
        simp only [hget] at h
        cases hfp2 : s.findProduct cart.product_id with
        | none =>
          simp only [hfp2] at h
          exact Option.noConfusion h
        | some product =>
          simp only [hfp2] at h
          cases hmul : multiplication (.int cart.quantity) product.price with
          | error e =>
            simp only [hmul] at h
            exact Option.noConfusion h
          | ok cart_price =>
            simp only [hmul] at h
            cases htot : cartsTotal s (s.carts.filter (fun c => c.user_id == u)) with
            | none =>
              simp only [htot] at h
              exact Option.noConfusion h
            | some total =>
              simp only [htot] at h
              injection h with h'
              injection h' with hs hv
              injection hv with hm hkb
              refine ⟨hs.symm, ?_, ?_⟩
              · rw [← hkb]
              · rw [← hm]
                exact (Paginator.make_ok _ pg pag hmk).2.1

/-- C8 counterexample: a `delete` action for a product that has no cart
line removes nothing (the state is unchanged and `findCart` was already
`none`), yet with `page = 2` the page passed on to the paginator and the
keyboard is still decremented to 1 — the decrement does not happen "exactly
when the acted-on cart line was actually removed". -/
theorem page_adjustment_counterexample :
    DB.findCart ⟨[⟨2, "n", "d", 10, "i", 1, 3⟩], [⟨1, 1, 2, 1⟩]⟩ 1 5 = Option.none ∧
    carts ⟨[⟨2, "n", "d", 10, "i", 1, 3⟩], [⟨1, 1, 2, 1⟩]⟩ 1 (some "delete") 2 5 =
      some (⟨[⟨2, "n", "d", 10, "i", 1, 3⟩], [⟨1, 1, 2, 1⟩]⟩,
        .view ⟨"i", "n", 10, 1, 10, 3, 1, 1, 10⟩ ⟨1, false, false, 2⟩) := by
  refine ⟨rfl, ?_⟩
  have h1 : ("delete" : String) ≠ "increment" := by decide
  norm_num [carts, cartsRender, cartsTotal, multiplication, orm_delete_from_cart,
    DB.findCart, DB.findProduct, Paginator.make, Paginator.get_item,
    Paginator.has_next, Paginator.has_previous, pyTruthy, h1]

/-- C8 amended: after a `delete` action the page passed to the paginator is
decremented whenever `page > 1` — whether or not a line was removed; after
a `decrement` action it is decremented exactly when `page > 1` and the
engine returned `False` (line absent or line deleted).  An empty cart after
the action yields the `(False, False)` sentinel pair, and a refused
increment (product absent or out of stock) yields `(True, False)` with the
state unchanged. -/
theorem carts_spec (s : DB) (u page pid : Int) :
    ((∀ pr, s.findProduct pid = some pr → pr.quantity ≤ 0) →
      carts s u (some "increment") page pid = some (s, .boolPair true false)) ∧
    (∀ s1, orm_delete_from_cart s u pid = some s1 →
      ((s1.carts.filter (fun c => c.user_id == u)).isEmpty = true →
        carts s u (some "delete") page pid = some (s1, .boolPair false false)) ∧
      (∀ st m kb, carts s u (some "delete") page pid = some (st, .view m kb) →
        st = s1 ∧ kb.page = (if 1 < page then page - 1 else page) ∧
        m.pag_page = (if 1 < page then page - 1 else page))) ∧
    (∀ out, orm_reduce_product_in_cart s u pid = some out →
      ((out.1.carts.filter (fun c => c.user_id == u)).isEmpty = true →
        carts s u (some "decrement") page pid = some (out.1, .boolPair false false)) ∧
      (∀ st m kb, carts s u (some "decrement") page pid = some (st, .view m kb) →
        st = out.1 ∧ kb.page = (if 1 < page ∧ out.2 = false then page - 1 else page) ∧
        m.pag_page = (if 1 < page ∧ out.2 = false then page - 1 else page))) := by
  refine ⟨?_, ?_, ?_⟩
  · intro h
    unfold carts
    rw [if_pos rfl]
    cases hfp : s.findProduct pid with
    | none => rfl
    | some pr =>
      have hq : ¬0 < pr.quantity := by
        have := h pr hfp
        omega
      simp only [hfp, hq, if_false]
  · intro s1 hdel
    have hcar : carts s u (some "delete") page pid =
        cartsRender s1 u (if 1 < page then page - 1 else page) := by
      unfold carts
      rw [if_neg (by decide), if_pos rfl]
      simp only [hdel]
    constructor
    · intro hemp
      rw [hcar]
      exact cartsRender_empty s1 u _ hemp
    · intro st m kb hview
      rw [hcar] at hview
      obtain ⟨h1, h2, h3⟩ := cartsRender_view s1 u _ st m kb hview
      exact ⟨h1, h2, h3⟩
  · intro out hred
    have hcar : carts s u (some "decrement") page pid =
        cartsRender out.1 u (if 1 < page ∧ out.2 = false then page - 1 else page) := by
      unfold carts
      rw [if_neg (by decide), if_neg (by decide), if_pos rfl]
      simp only [hred]
    constructor
    · intro hemp
      rw [hcar]
      exact cartsRender_empty out.1 u _ hemp
    · intro st m kb hview
      rw [hcar] at hview
      obtain ⟨h1, h2, h3⟩ := cartsRender_view out.1 u _ st m kb hview
      exact ⟨h1, h2, h3⟩

/-- Witness for C8 amended: a refused increment on an empty database, a
delete that empties the cart at `page = 1`, and a no-op delete at
`page = 2` whose rendered view carries page 1. -/
theorem carts_spec_witness :
    carts ⟨[], []⟩ 1 (some "increment") 1 7 = some (⟨[], []⟩, .boolPair true false) ∧
    carts ⟨[⟨2, "n", "d", 10, "i", 1, 3⟩], [⟨1, 1, 2, 1⟩]⟩ 1 (some "delete") 1 2 =
      some (⟨[⟨2, "n", "d", 10, "i", 1, 4⟩], []⟩, .boolPair false false) ∧
    ((⟨[⟨2, "n", "d", 10, "i", 1, 3⟩], [⟨1, 1, 2, 1⟩]⟩ : DB) =
        ⟨[⟨2, "n", "d", 10, "i", 1, 3⟩], [⟨1, 1, 2, 1⟩]⟩ ∧
      (1 : Int) = (if (1 : Int) < 2 then 2 - 1 else 2) ∧
      (1 : Int) = (if (1 : Int) < 2 then 2 - 1 else 2)) :=
  by
  refine ⟨(carts_spec ⟨[], []⟩ 1 1 7).1 (fun pr h => Option.noConfusion h),
    ((carts_spec ⟨[⟨2, "n", "d", 10, "i", 1, 3⟩], [⟨1, 1, 2, 1⟩]⟩ 1 1 2).2.1
        ⟨[⟨2, "n", "d", 10, "i", 1, 4⟩], []⟩ rfl).1 rfl, ?_⟩
  have h1 : ("delete" : String) ≠ "increment" := by decide
  have hv : carts ⟨[⟨2, "n", "d", 10, "i", 1, 3⟩], [⟨1, 1, 2, 1⟩]⟩ 1 (some "delete") 2 5 =
      some (⟨[⟨2, "n", "d", 10, "i", 1, 3⟩], [⟨1, 1, 2, 1⟩]⟩,
        .view ⟨"i", "n", 10, 1, 10, 3, 1, 1, 10⟩ ⟨1, false, false, 2⟩) := by
    norm_num [carts, cartsRender, cartsTotal, multiplication, orm_delete_from_cart,
      DB.findCart, DB.findProduct, Paginator.make, Paginator.get_item,
      Paginator.has_next, Paginator.has_previous, pyTruthy, h1]
  exact ((carts_spec ⟨[⟨2, "n", "d", 10, "i", 1, 3⟩], [⟨1, 1, 2, 1⟩]⟩ 1 2 5).2.1
      ⟨[⟨2, "n", "d", 10, "i", 1, 3⟩], [⟨1, 1, 2, 1⟩]⟩ rfl).2
    ⟨[⟨2, "n", "d", 10, "i", 1, 3⟩], [⟨1, 1, 2, 1⟩]⟩
    ⟨"i", "n", 10, 1, 10, 3, 1, 1, 10⟩ ⟨1, false, false, 2⟩ hv
